import Mathlib

/-
  Shallow embedding of the dentech-floss/cache Go library
  (pkg/cache: cache.go, config.go, factory.go, memory.go, noop.go,
  serialization.go, distributed.go), together with theorems settling
  the specification claims about it.

  External collaborators (the redis client, the ttlcache engine, the
  json/gob/proto codecs, redisotel instrumentation) are modelled as
  environments supplying the outcome of each external call; the code
  of this repository is translated faithfully, and every external call
  the code issues is recorded in a trace so that claims about which
  calls happen (and which never happen) can be stated.
-/

namespace DentechCache

/-- Go errors as observed by this library: the distinguished
context.Canceled value, or an error with a message (errors.New /
fmt.Errorf or an error produced by a collaborator). -/
inductive GoError where
  | canceled
  | msg (s : String)
deriving DecidableEq, Repr

/-- A Go context, reduced to the one observable the code consults:
whether its Done channel has already fired. ctx.Err() of a cancelled
context is context.Canceled. -/
structure Context where
  cancelled : Bool
deriving DecidableEq, Repr

/-- ctx.Err(): context.Canceled when the context is cancelled, nil otherwise. -/
def Context.err (ctx : Context) : Option GoError :=
  if ctx.cancelled then some GoError.canceled else none

/- ---------------------------------------------------------------
   cache.go: CacheType and SerializationType string constants
   --------------------------------------------------------------- -/

def TypeMemory : String := "memory"

def TypeDistributed : String := "distributed"

def TypeNoOp : String := "noop"

def SerializationProtobuf : String := "protobuf"

def SerializationJSON : String := "json"

def SerializationGob : String := "gob"

/- ---------------------------------------------------------------
   serialization.go
   --------------------------------------------------------------- -/

/-- A Serializer value, identified by which implementation it is:
the built-in JSONSerializer, the built-in GobSerializer, or a
caller-supplied custom implementation (identified by an id). The
byte-level behaviour of a serializer is supplied separately by the
operation environment, since json/gob encoding is an external
collaborator. -/
inductive Serializer where
  | jsonSerializer
  | gobSerializer
  | custom (id : Nat)
deriving DecidableEq, Repr

/-- NewSerializer from serialization.go: switch on the serialization
type string; json and gob succeed, protobuf is rejected with a
dedicated message, anything else is an unknown serialization type. -/
def NewSerializer (serializationType : String) : Except GoError Serializer :=
  if serializationType = SerializationJSON then
    Except.ok Serializer.jsonSerializer
  else if serializationType = SerializationGob then
    Except.ok Serializer.gobSerializer
  else if serializationType = SerializationProtobuf then
    Except.error (GoError.msg
      "protobuf serialization requires special handling - use NewDistributed")
  else
    Except.error (GoError.msg "unknown serialization type")

/- ---------------------------------------------------------------
   config.go
   --------------------------------------------------------------- -/

/-- MemoryConfig from config.go. -/
structure MemoryConfig where
  skipTTLExtensionOnHit : Bool
deriving DecidableEq, Repr

/-- DistributedConfig from config.go. Durations are modelled as Int
nanoseconds (time.Duration). The client field models the optional
caller-supplied redis.UniversalClient, identified by an id;
none models a nil Client field. -/
structure DistributedConfig where
  addr : String
  password : String
  db : Int
  poolSize : Int
  minIdleConns : Int
  maxRetries : Int
  dialTimeout : Int
  readTimeout : Int
  writeTimeout : Int
  enableTracing : Bool
  enableMetrics : Bool
  serializationType : String
  serializer : Option Serializer
  client : Option Nat
deriving DecidableEq, Repr

/-- Config from config.go. The type field is the CacheType string. -/
structure Config where
  type : String
  memory : Option MemoryConfig
  distributed : Option DistributedConfig
deriving DecidableEq, Repr

/- ---------------------------------------------------------------
   memory.go
   --------------------------------------------------------------- -/

/-- The state NewMemory leaves behind: a ttlcache engine configured
with SkipTTLExtensionOnHit. (The engine itself is external; the one
construction-time knob the code passes through is this flag.) -/
structure MemoryCacheCore where
  skipTTLExtensionOnHit : Bool
deriving DecidableEq, Repr

/-- NewMemory from memory.go: with a non-nil config the flag is passed
through; with a nil config the default is SkipTTLExtensionOnHit(true). -/
def NewMemory (config : Option MemoryConfig) : MemoryCacheCore :=
  match config with
  | some c => { skipTTLExtensionOnHit := c.skipTTLExtensionOnHit }
  | none => { skipTTLExtensionOnHit := true }

/-- Calls the memory backend issues to the external ttlcache engine. -/
inductive EngineCall where
  | get (key : String)
  | set (key : String) (ttl : Int)
  | remove (key : String)
deriving DecidableEq, Repr

/-- Outcomes of the external ttlcache engine calls, supplied by the
test environment: Get returns a value or an error (ErrNotFound on
miss), SetWithTTL and Remove return an optional error. The engine of a
constructed memory cache stores values of the element type, so the
type assertion on the Get path succeeds whenever the engine returns a
value. -/
structure MemEnv (T : Type) where
  engineGet : String → Except GoError T
  engineSet : String → T → Int → Option GoError
  engineRemove : String → Option GoError

/-- memoryCache.Get: first the cancellation check (cancelled context
is an immediate miss with no engine call), then the engine lookup;
an engine error is a miss. Returns the result and the engine calls
issued. -/
def memGet {T : Type} (zero : T) (env : MemEnv T) (ctx : Context) (key : String) :
    (T × Bool) × List EngineCall :=
  if ctx.cancelled then ((zero, false), [])
  else
    match env.engineGet key with
    | Except.error _ => ((zero, false), [EngineCall.get key])
    | Except.ok v => ((v, true), [EngineCall.get key])

/-- memoryCache.Set: cancellation check first (returns ctx.Err() with
no engine call), then the engine SetWithTTL. -/
def memSet {T : Type} (env : MemEnv T) (ctx : Context) (key : String) (value : T)
    (ttl : Int) : Option GoError × List EngineCall :=
  if ctx.cancelled then (some GoError.canceled, [])
  else (env.engineSet key value ttl, [EngineCall.set key ttl])

/-- memoryCache.Delete: cancellation check first (returns ctx.Err()
with no engine call), then the engine Remove. -/
def memDelete {T : Type} (env : MemEnv T) (ctx : Context) (key : String) :
    Option GoError × List EngineCall :=
  if ctx.cancelled then (some GoError.canceled, [])
  else (env.engineRemove key, [EngineCall.remove key])

/- ---------------------------------------------------------------
   noop.go
   --------------------------------------------------------------- -/

/-- noOpCache.Get: ignores the context and key, always a miss. -/
def noOpGet {T : Type} (zero : T) (_ctx : Context) (_key : String) : T × Bool :=
  (zero, false)

/-- noOpCache.Set: ignores every argument, always returns nil. -/
def noOpSet {T : Type} (_ctx : Context) (_key : String) (_value : T) (_ttl : Int) :
    Option GoError :=
  none

/-- noOpCache.Delete: ignores every argument, always returns nil. -/
def noOpDelete (_ctx : Context) (_key : String) : Option GoError :=
  none

/-- noOpCache.Close: always returns nil. -/
def noOpClose : Option GoError :=
  none

/- ---------------------------------------------------------------
   distributed.go: construction
   --------------------------------------------------------------- -/

/-- The redis.Options value passed to redis.NewClient. -/
structure RedisOptions where
  addr : String
  password : String
  db : Int
  poolSize : Int
  minIdleConns : Int
  maxRetries : Int
  dialTimeout : Int
  readTimeout : Int
  writeTimeout : Int
deriving DecidableEq, Repr

/-- A reference to a redis client: either a caller-supplied client
(from the DistributedConfig Client field, identified by its id) or a
client freshly created by redis.NewClient with the given options. -/
inductive ClientRef where
  | supplied (id : Nat)
  | fresh (opts : RedisOptions)
deriving DecidableEq, Repr

/-- External calls issued during construction of a distributed cache. -/
inductive BuildEvent where
  | newClient (opts : RedisOptions)
  | instrumentTracing
  | instrumentMetrics
  | ping
  | closeClient
deriving DecidableEq, Repr

/-- Outcomes of the external calls during construction, supplied by
the environment: the results of redisotel.InstrumentTracing,
redisotel.InstrumentMetrics and client.Ping on the new client. -/
structure BuildEnv where
  instrumentTracingErr : Option GoError
  instrumentMetricsErr : Option GoError
  pingErr : Option GoError
deriving DecidableEq, Repr

/-- Result of a constructor: the returned value or error, plus the
trace of external calls issued along the way. -/
structure BuildOut (A : Type) where
  result : Except GoError A
  trace : List BuildEvent
deriving Repr

/-- The state a distributedCache (proto variant) value holds. -/
structure DistributedProtoCacheCore where
  client : Option ClientRef
deriving DecidableEq, Repr

/-- The state a distributedGenericCache value holds. -/
structure DistributedGenericCacheCore where
  client : Option ClientRef
  serializer : Serializer
deriving DecidableEq, Repr

/-- The default-filling block shared by the constructors: every
zero-valued pool/retry/timeout field is replaced by its fixed default
(10 / 5 / 3 / 5s / 3s / 3s). -/
def setDistributedDefaults (c : DistributedConfig) : DistributedConfig :=
  { c with
    poolSize := if c.poolSize = 0 then 10 else c.poolSize
    minIdleConns := if c.minIdleConns = 0 then 5 else c.minIdleConns
    maxRetries := if c.maxRetries = 0 then 3 else c.maxRetries
    dialTimeout := if c.dialTimeout = 0 then 5000000000 else c.dialTimeout
    readTimeout := if c.readTimeout = 0 then 3000000000 else c.readTimeout
    writeTimeout := if c.writeTimeout = 0 then 3000000000 else c.writeTimeout }

/-- The redis.Options literal each constructor builds from the
(defaulted) configuration. -/
def redisOptionsOf (c : DistributedConfig) : RedisOptions :=
  { addr := c.addr
    password := c.password
    db := c.db
    poolSize := c.poolSize
    minIdleConns := c.minIdleConns
    maxRetries := c.maxRetries
    dialTimeout := c.dialTimeout
    readTimeout := c.readTimeout
    writeTimeout := c.writeTimeout }

/-- createDistributedCacheForProto from distributed.go: nil-config
check, defaults, redis.NewClient, then — when EnableTracing or
EnableMetrics is set — InstrumentTracing followed by
InstrumentMetrics (each returning its error without closing the new
client), then the Ping liveness probe (its error is likewise returned
without closing the client). Note the Client field of the
configuration is never consulted: a fresh client is always created. -/
def createDistributedCacheForProto (env : BuildEnv) (config : Option DistributedConfig) :
    BuildOut DistributedProtoCacheCore :=
  match config with
  | none => ⟨Except.error (GoError.msg "config cannot be nil"), []⟩
  | some cfg0 =>
    let cfg := setDistributedDefaults cfg0
    let opts := redisOptionsOf cfg
    let t0 := [BuildEvent.newClient opts]
    if cfg.enableTracing || cfg.enableMetrics then
      match env.instrumentTracingErr with
      | some e => ⟨Except.error e, t0 ++ [BuildEvent.instrumentTracing]⟩
      | none =>
        match env.instrumentMetricsErr with
        | some e =>
          ⟨Except.error e,
            t0 ++ [BuildEvent.instrumentTracing, BuildEvent.instrumentMetrics]⟩
        | none =>
          match env.pingErr with
          | some e =>
            ⟨Except.error e,
              t0 ++ [BuildEvent.instrumentTracing, BuildEvent.instrumentMetrics,
                BuildEvent.ping]⟩
          | none =>
            ⟨Except.ok { client := some (ClientRef.fresh opts) },
              t0 ++ [BuildEvent.instrumentTracing, BuildEvent.instrumentMetrics,
                BuildEvent.ping]⟩
    else
      match env.pingErr with
      | some e => ⟨Except.error e, t0 ++ [BuildEvent.ping]⟩
      | none =>
        ⟨Except.ok { client := some (ClientRef.fresh opts) },
          t0 ++ [BuildEvent.ping]⟩

/-- NewDistributedForProto from distributed.go: its body is textually
identical to createDistributedCacheForProto. -/
def NewDistributedForProto (env : BuildEnv) (config : Option DistributedConfig) :
    BuildOut DistributedProtoCacheCore :=
  createDistributedCacheForProto env config

/-- The serializer-selection block of NewDistributedGeneric: a custom
Serializer in the configuration wins; otherwise the SerializationType
string, defaulted to json when empty, is passed to NewSerializer. -/
def resolveSerializer (cfg : DistributedConfig) : Except GoError Serializer :=
  match cfg.serializer with
  | some s => Except.ok s
  | none =>
    let st := if cfg.serializationType = "" then SerializationJSON
      else cfg.serializationType
    NewSerializer st

/-- NewDistributedGeneric from distributed.go: nil-config check,
defaults, serializer selection (resolveSerializer; its error is
returned before any client is created), then redis.NewClient, the
instrumentation block and the Ping probe exactly as in the proto
constructor. The Client field of the configuration is never
consulted: a fresh client is always created, and the returned cache
holds that fresh client. -/
def NewDistributedGeneric (env : BuildEnv) (config : Option DistributedConfig) :
    BuildOut DistributedGenericCacheCore :=
  match config with
  | none => ⟨Except.error (GoError.msg "config cannot be nil"), []⟩
  | some cfg0 =>
    let cfg := setDistributedDefaults cfg0
    match resolveSerializer cfg with
    | Except.error e => ⟨Except.error e, []⟩
    | Except.ok ser =>
      let opts := redisOptionsOf cfg
      let t0 := [BuildEvent.newClient opts]
      if cfg.enableTracing || cfg.enableMetrics then
        match env.instrumentTracingErr with
        | some e => ⟨Except.error e, t0 ++ [BuildEvent.instrumentTracing]⟩
        | none =>
          match env.instrumentMetricsErr with
          | some e =>
            ⟨Except.error e,
              t0 ++ [BuildEvent.instrumentTracing, BuildEvent.instrumentMetrics]⟩
          | none =>
            match env.pingErr with
            | some e =>
              ⟨Except.error e,
                t0 ++ [BuildEvent.instrumentTracing, BuildEvent.instrumentMetrics,
                  BuildEvent.ping]⟩
            | none =>
              ⟨Except.ok { client := some (ClientRef.fresh opts), serializer := ser },
                t0 ++ [BuildEvent.instrumentTracing, BuildEvent.instrumentMetrics,
                  BuildEvent.ping]⟩
      else
        match env.pingErr with
        | some e => ⟨Except.error e, t0 ++ [BuildEvent.ping]⟩
        | none =>
          ⟨Except.ok { client := some (ClientRef.fresh opts), serializer := ser },
            t0 ++ [BuildEvent.ping]⟩

/- ---------------------------------------------------------------
   distributed.go: operations
   --------------------------------------------------------------- -/

/-- Calls a distributed cache operation issues to the redis client.
Each call carries the context the code passes to the client. -/
inductive ClientCall where
  | get (ctx : Context) (key : String)
  | set (ctx : Context) (key : String) (data : List Nat) (ttl : Int)
  | del (ctx : Context) (key : String)
  | ping (ctx : Context)
  | close
deriving DecidableEq, Repr

/-- Outcomes of the external calls a distributedGenericCache issues,
supplied by the environment: the redis client call results and the
behaviour of each serializer implementation on values of the element
type (serialized bytes are modelled as a list of byte values). -/
structure OpEnv (T : Type) where
  clientGetBytes : String → Except GoError (List Nat)
  clientSetErr : String → List Nat → Int → Option GoError
  clientDelErr : String → Option GoError
  clientPingErr : Option GoError
  clientCloseErr : Option GoError
  serialize : Serializer → T → Except GoError (List Nat)
  deserialize : Serializer → List Nat → Except GoError T

/-- distributedGenericCache.Get: nil-client check (miss, no call),
then client.Get(ctx, key).Bytes() (any error is a miss), then
Deserialize (any error is a miss). -/
def dgGet {T : Type} (zero : T) (env : OpEnv T) (c : DistributedGenericCacheCore)
    (ctx : Context) (key : String) : (T × Bool) × List ClientCall :=
  match c.client with
  | none => ((zero, false), [])
  | some _ =>
    match env.clientGetBytes key with
    | Except.error _ => ((zero, false), [ClientCall.get ctx key])
    | Except.ok data =>
      match env.deserialize c.serializer data with
      | Except.error _ => ((zero, false), [ClientCall.get ctx key])
      | Except.ok result => ((result, true), [ClientCall.get ctx key])

/-- distributedGenericCache.Set: nil-client check (nil, no call),
then Serialize (its error is returned with no client call), then
client.Set(ctx, key, data, ttl). -/
def dgSet {T : Type} (env : OpEnv T) (c : DistributedGenericCacheCore)
    (ctx : Context) (key : String) (value : T) (ttl : Int) :
    Option GoError × List ClientCall :=
  match c.client with
  | none => (none, [])
  | some _ =>
    match env.serialize c.serializer value with
    | Except.error e => (some e, [])
    | Except.ok data =>
      (env.clientSetErr key data ttl, [ClientCall.set ctx key data ttl])

/-- distributedGenericCache.Delete: nil-client check (nil, no call),
then client.Del(ctx, key). -/
def dgDelete {T : Type} (env : OpEnv T) (c : DistributedGenericCacheCore)
    (ctx : Context) (key : String) : Option GoError × List ClientCall :=
  match c.client with
  | none => (none, [])
  | some _ => (env.clientDelErr key, [ClientCall.del ctx key])

/-- distributedGenericCache.Close: closes the client it holds whenever
that client is non-nil (there is no ownership flag). -/
def dgClose {T : Type} (env : OpEnv T) (c : DistributedGenericCacheCore) :
    Option GoError × List ClientCall :=
  match c.client with
  | none => (none, [])
  | some _ => (env.clientCloseErr, [ClientCall.close])

/-- distributedGenericCache.Ping: nil-client check (nil, no call),
then client.Ping(ctx). -/
def dgPing {T : Type} (env : OpEnv T) (c : DistributedGenericCacheCore)
    (ctx : Context) : Option GoError × List ClientCall :=
  match c.client with
  | none => (none, [])
  | some _ => (env.clientPingErr, [ClientCall.ping ctx])

/-- Outcomes of the external calls a distributedCache (proto variant)
issues: the redis client call results, whether the element type
satisfies proto.Message, and the proto.Marshal / proto.Unmarshal
behaviour on values of the element type. -/
structure ProtoOpEnv (T : Type) where
  clientGetBytes : String → Except GoError (List Nat)
  clientSetErr : String → List Nat → Int → Option GoError
  clientDelErr : String → Option GoError
  clientPingErr : Option GoError
  clientCloseErr : Option GoError
  isProto : Bool
  marshal : T → Except GoError (List Nat)
  unmarshal : List Nat → Except GoError T

/-- distributedCache.Get: nil-client check (miss, no call), then
client.Get(ctx, key).Bytes() (any error is a miss), then — when the
element type is a proto.Message — proto.Unmarshal into a fresh
instance (any error is a miss); a non-proto element type is a miss. -/
def dpGet {T : Type} (zero : T) (env : ProtoOpEnv T) (c : DistributedProtoCacheCore)
    (ctx : Context) (key : String) : (T × Bool) × List ClientCall :=
  match c.client with
  | none => ((zero, false), [])
  | some _ =>
    match env.clientGetBytes key with
    | Except.error _ => ((zero, false), [ClientCall.get ctx key])
    | Except.ok data =>
      if env.isProto then
        match env.unmarshal data with
        | Except.error _ => ((zero, false), [ClientCall.get ctx key])
        | Except.ok result => ((result, true), [ClientCall.get ctx key])
      else
        ((zero, false), [ClientCall.get ctx key])

/-- distributedCache.Set: nil-client check (nil, no call); for a
proto.Message element type, proto.Marshal (its error is returned with
no client call) then client.Set(ctx, key, data, ttl); a non-proto
element type is an error. -/
def dpSet {T : Type} (env : ProtoOpEnv T) (c : DistributedProtoCacheCore)
    (ctx : Context) (key : String) (value : T) (ttl : Int) :
    Option GoError × List ClientCall :=
  match c.client with
  | none => (none, [])
  | some _ =>
    if env.isProto then
      match env.marshal value with
      | Except.error e => (some e, [])
      | Except.ok data =>
        (env.clientSetErr key data ttl, [ClientCall.set ctx key data ttl])
    else
      (some (GoError.msg "distributedCache can only be used with proto.Message types"),
        [])

/-- distributedCache.Delete: nil-client check (nil, no call), then
client.Del(ctx, key). -/
def dpDelete {T : Type} (env : ProtoOpEnv T) (c : DistributedProtoCacheCore)
    (ctx : Context) (key : String) : Option GoError × List ClientCall :=
  match c.client with
  | none => (none, [])
  | some _ => (env.clientDelErr key, [ClientCall.del ctx key])

/-- distributedCache.Close: closes the client it holds whenever that
client is non-nil (there is no ownership flag). -/
def dpClose {T : Type} (env : ProtoOpEnv T) (c : DistributedProtoCacheCore) :
    Option GoError × List ClientCall :=
  match c.client with
  | none => (none, [])
  | some _ => (env.clientCloseErr, [ClientCall.close])

/-- distributedCache.Ping: nil-client check (nil, no call), then
client.Ping(ctx). -/
def dpPing {T : Type} (env : ProtoOpEnv T) (c : DistributedProtoCacheCore)
    (ctx : Context) : Option GoError × List ClientCall :=
  match c.client with
  | none => (none, [])
  | some _ => (env.clientPingErr, [ClientCall.ping ctx])

/- ---------------------------------------------------------------
   factory.go
   --------------------------------------------------------------- -/

/-- The concrete backend the factory returns. -/
inductive Backend where
  | memory (c : MemoryCacheCore)
  | distributedProto (c : DistributedProtoCacheCore)
  | distributedGeneric (c : DistributedGenericCacheCore)
  | noOp
deriving DecidableEq, Repr

/-- New from factory.go. The isProto argument is the result of
isProtoMessage on the zero value of the element type (a runtime
capability check on the Go side; the element type is fixed per call,
so its detector result is a parameter here). Dispatch is a switch on
the Type string: memory builds NewMemory on the memory
sub-configuration, distributed routes on isProto to the proto or the
generic constructor, noop builds the no-op backend, anything else is
an unknown cache type error. -/
def New (isProto : Bool) (env : BuildEnv) (config : Option Config) :
    Except GoError Backend :=
  match config with
  | none => Except.error (GoError.msg "config cannot be nil")
  | some cfg =>
    if cfg.type = TypeMemory then
      Except.ok (Backend.memory (NewMemory cfg.memory))
    else if cfg.type = TypeDistributed then
      if isProto then
        match (createDistributedCacheForProto env cfg.distributed).result with
        | Except.error e => Except.error e
        | Except.ok c => Except.ok (Backend.distributedProto c)
      else
        match (NewDistributedGeneric env cfg.distributed).result with
        | Except.error e => Except.error e
        | Except.ok c => Except.ok (Backend.distributedGeneric c)
    else if cfg.type = TypeNoOp then
      Except.ok Backend.noOp
    else
      Except.error (GoError.msg ("unknown cache type: " ++ cfg.type))

/- ---------------------------------------------------------------
   Concrete fixtures used by the theorems below
   --------------------------------------------------------------- -/

/-- A construction environment in which every external call succeeds. -/
def benignBuildEnv : BuildEnv :=
  { instrumentTracingErr := none, instrumentMetricsErr := none, pingErr := none }

/-- A distributed configuration with every optional field left at its
zero value. -/
def plainDistributedConfig : DistributedConfig :=
  { addr := "localhost:6379", password := "", db := 0, poolSize := 0,
    minIdleConns := 0, maxRetries := 0, dialTimeout := 0, readTimeout := 0,
    writeTimeout := 0, enableTracing := false, enableMetrics := false,
    serializationType := "", serializer := none, client := none }

/-- A distributed configuration that supplies an existing client
(the Client field) and leaves everything else at its zero value. -/
def sharedClientConfig : DistributedConfig :=
  { plainDistributedConfig with client := some 0 }

/-- A distributed configuration requesting tracing on an owned
connection. -/
def tracingOnConfig : DistributedConfig :=
  { plainDistributedConfig with enableTracing := true }

/-- A distributed configuration requesting only metrics. -/
def metricsOnlyConfig : DistributedConfig :=
  { plainDistributedConfig with enableMetrics := true }

/-- A distributed configuration requesting only metrics and carrying
a caller-supplied custom serializer. -/
def metricsOnlyCustomSerConfig : DistributedConfig :=
  { plainDistributedConfig with
    enableMetrics := true
    serializer := some (Serializer.custom 7) }

/-- A construction environment in which attaching tracing
instrumentation fails. -/
def tracingFailEnv : BuildEnv :=
  { instrumentTracingErr := some (GoError.msg "otel instrumentation failed"),
    instrumentMetricsErr := none, pingErr := none }

/-- A concrete ttlcache environment over Nat elements whose engine is
empty: every lookup misses and every store or removal succeeds. -/
def natMemEnv : MemEnv Nat :=
  { engineGet := fun _ => Except.error (GoError.msg "key not found")
    engineSet := fun _ _ _ => none
    engineRemove := fun _ => none }

/-- A concrete redis operation environment over Nat elements: the
store is empty, every write succeeds, and every serializer encodes a
Nat as a single byte. -/
def natOpEnv : OpEnv Nat :=
  { clientGetBytes := fun _ => Except.error (GoError.msg "redis: nil")
    clientSetErr := fun _ _ _ => none
    clientDelErr := fun _ => none
    clientPingErr := none
    clientCloseErr := none
    serialize := fun _ v => Except.ok [v % 256]
    deserialize := fun _ data =>
      match data with
      | [b] => Except.ok b
      | _ => Except.error (GoError.msg "decode failed") }

/-- A concrete redis operation environment for the structured
(proto) variant over Nat elements: the element type counts as a
proto.Message, the store is empty, every write succeeds, and marshal
encodes a Nat as a single byte. -/
def natProtoOpEnv : ProtoOpEnv Nat :=
  { clientGetBytes := fun _ => Except.error (GoError.msg "redis: nil")
    clientSetErr := fun _ _ _ => none
    clientDelErr := fun _ => none
    clientPingErr := none
    clientCloseErr := none
    isProto := true
    marshal := fun v => Except.ok [v % 256]
    unmarshal := fun data =>
      match data with
      | [b] => Except.ok b
      | _ => Except.error (GoError.msg "decode failed") }

/-- A construction environment in which attaching metrics
instrumentation fails. -/
def metricsFailEnv : BuildEnv :=
  { instrumentTracingErr := none
    instrumentMetricsErr := some (GoError.msg "otel metrics failed")
    pingErr := none }

/- ---------------------------------------------------------------
   Claim theorems
   --------------------------------------------------------------- -/

/-- Claim C6: NewSerializer returns the JSON serializer for the json
kind and the gob serializer for the gob kind; the protobuf kind fails
with the requires-special-handling error directing callers to the
structured-payload constructor; every other kind fails with the
unknown-serialization-type error. -/
theorem c6_new_serializer_cases :
    NewSerializer SerializationJSON = Except.ok Serializer.jsonSerializer
    ∧ NewSerializer SerializationGob = Except.ok Serializer.gobSerializer
    ∧ NewSerializer SerializationProtobuf = Except.error (GoError.msg
        "protobuf serialization requires special handling - use NewDistributed")
    ∧ ∀ st : String, st ≠ SerializationJSON → st ≠ SerializationGob →
        st ≠ SerializationProtobuf →
        NewSerializer st = Except.error (GoError.msg "unknown serialization type") := by
  refine ⟨rfl, rfl, rfl, ?_⟩
  intro st h1 h2 h3
  unfold NewSerializer
  rw [if_neg h1, if_neg h2, if_neg h3]

/-- Witness for C6: the unrecognized kind msgpack satisfies the
hypotheses of the universal clause, and NewSerializer rejects it with
the unknown-serialization-type error. -/
theorem c6_new_serializer_witness :
    (("msgpack" : String) ≠ SerializationJSON
      ∧ ("msgpack" : String) ≠ SerializationGob
      ∧ ("msgpack" : String) ≠ SerializationProtobuf)
    ∧ NewSerializer "msgpack" =
        Except.error (GoError.msg "unknown serialization type") :=
  ⟨⟨by decide, by decide, by decide⟩,
    c6_new_serializer_cases.2.2.2 "msgpack" (by decide) (by decide) (by decide)⟩

/-- Claim C7: for every context, key, value and TTL, the no-op
backend always misses on Get, returns nil from Set without storing,
returns nil from Delete, and returns nil from Close; the noOpCache
struct is empty, so there is no internal state to keep. -/
theorem c7_noop_invariants :
    ∀ (T : Type) (zero : T) (ctx : Context) (key : String) (value : T) (ttl : Int),
      noOpGet zero ctx key = (zero, false)
      ∧ noOpSet ctx key value ttl = none
      ∧ noOpDelete ctx key = none
      ∧ noOpClose = none := by
  intro T zero ctx key value ttl
  exact ⟨rfl, rfl, rfl, rfl⟩

/-- Claim C8: with a nil client reference, every public operation of
both distributed variants is total and issues no client call: Get
returns the zero value and false, and Set, Delete, Close and Ping
each return nil. -/
theorem c8_nil_client_total :
    ∀ (T : Type) (zero : T) (env : OpEnv T) (penv : ProtoOpEnv T) (s : Serializer)
      (ctx : Context) (key : String) (value : T) (ttl : Int),
      dgGet zero env { client := none, serializer := s } ctx key = ((zero, false), [])
      ∧ dgSet env { client := none, serializer := s } ctx key value ttl = (none, [])
      ∧ dgDelete env { client := none, serializer := s } ctx key = (none, [])
      ∧ dgClose env { client := none, serializer := s } = (none, [])
      ∧ dgPing env { client := none, serializer := s } ctx = (none, [])
      ∧ dpGet zero penv { client := none } ctx key = ((zero, false), [])
      ∧ dpSet penv { client := none } ctx key value ttl = (none, [])
      ∧ dpDelete penv { client := none } ctx key = (none, [])
      ∧ dpClose penv { client := none } = (none, [])
      ∧ dpPing penv { client := none } ctx = (none, []) := by
  intro T zero env penv s ctx key value ttl
  exact ⟨rfl, rfl, rfl, rfl, rfl, rfl, rfl, rfl, rfl, rfl⟩

/-- Claim C10: NewMemory with a nil MemoryConfig sets the engine to
skip TTL extension on hit, while NewMemory with a non-nil zero-valued
MemoryConfig passes the zero flag through, so extension stays enabled;
the two constructions differ. -/
theorem c10_memory_nil_vs_zero_config :
    NewMemory none = { skipTTLExtensionOnHit := true }
    ∧ NewMemory (some { skipTTLExtensionOnHit := false }) =
        { skipTTLExtensionOnHit := false }
    ∧ NewMemory none ≠ NewMemory (some { skipTTLExtensionOnHit := false }) := by
  exact ⟨rfl, rfl, by decide⟩

/-- Claim C1 (evaluation at the failing input): constructing the
generic distributed backend from a configuration that supplies an
existing client (Client field set) still creates a fresh client —
the construction succeeds with the freshly created client, a
redis.NewClient call appears in the trace, the returned cache holds
the fresh client rather than the supplied one, and Close on the
returned cache issues a close on the client it holds. This
contradicts the documented Client semantics in config.go (reuse the
supplied client; never close it on Close). -/
theorem c1_client_field_ignored :
    (NewDistributedGeneric benignBuildEnv (some sharedClientConfig)).result =
      Except.ok
        { client := some (ClientRef.fresh
            (redisOptionsOf (setDistributedDefaults sharedClientConfig)))
          serializer := Serializer.jsonSerializer }
    ∧ BuildEvent.newClient (redisOptionsOf (setDistributedDefaults sharedClientConfig)) ∈
        (NewDistributedGeneric benignBuildEnv (some sharedClientConfig)).trace
    ∧ (∀ (T : Type) (env : OpEnv T),
        dgClose env
          { client := some (ClientRef.fresh
              (redisOptionsOf (setDistributedDefaults sharedClientConfig)))
            serializer := Serializer.jsonSerializer } =
          (env.clientCloseErr, [ClientCall.close]))
    ∧ ClientRef.fresh (redisOptionsOf (setDistributedDefaults sharedClientConfig)) ≠
        ClientRef.supplied 0 := by
  refine ⟨rfl, ?_, ?_, by simp⟩
  · show BuildEvent.newClient _ ∈
      [BuildEvent.newClient (redisOptionsOf (setDistributedDefaults sharedClientConfig)),
        BuildEvent.ping]
    exact List.mem_cons_self _ _
  · intro T env
    rfl

/-- Claim C2 counterexample: on the no-op backend, Set invoked with
an already-cancelled context returns nil, not the cancellation error
the claim requires of every backend. -/
theorem c2_counterexample_noop_set_cancelled :
    Context.err { cancelled := true } = some GoError.canceled
    ∧ noOpSet { cancelled := true } "key1" (0 : Nat) 60 = none
    ∧ (none : Option GoError) ≠ some GoError.canceled := by
  exact ⟨rfl, rfl, by simp⟩

/-- Claim C2 as amended: only the local (memory) backend checks
cancellation as its first action — with a cancelled context its Get
reports a miss and its Set and Delete return the cancellation error,
all without any engine call. The no-op backend ignores the context
entirely (Get misses, Set and Delete return nil). Neither distributed
backend performs a cancellation pre-check: when encoding succeeds
(the generic variant serializes, the structured variant marshals),
Set issues the underlying client call, passing the cancelled context
along. -/
theorem c2_amended_cancellation_per_backend :
    (∀ (T : Type) (zero : T) (env : MemEnv T) (ctx : Context) (key : String)
        (value : T) (ttl : Int),
      ctx.cancelled = true →
      memGet zero env ctx key = ((zero, false), [])
      ∧ memSet env ctx key value ttl = (some GoError.canceled, [])
      ∧ memDelete env ctx key = (some GoError.canceled, []))
    ∧ (∀ (T : Type) (zero : T) (ctx : Context) (key : String) (value : T) (ttl : Int),
      noOpGet zero ctx key = (zero, false)
      ∧ noOpSet ctx key value ttl = none
      ∧ noOpDelete ctx key = none)
    ∧ (∀ (T : Type) (env : OpEnv T) (r : ClientRef) (s : Serializer) (ctx : Context)
        (key : String) (value : T) (ttl : Int) (data : List Nat),
      env.serialize s value = Except.ok data →
      dgSet env { client := some r, serializer := s } ctx key value ttl =
        (env.clientSetErr key data ttl, [ClientCall.set ctx key data ttl]))
    ∧ (∀ (T : Type) (penv : ProtoOpEnv T) (r : ClientRef) (ctx : Context)
        (key : String) (value : T) (ttl : Int) (data : List Nat),
      penv.isProto = true →
      penv.marshal value = Except.ok data →
      dpSet penv { client := some r } ctx key value ttl =
        (penv.clientSetErr key data ttl, [ClientCall.set ctx key data ttl])) := by
  refine ⟨?_, ?_, ?_, ?_⟩
  · intro T zero env ctx key value ttl hc
    exact ⟨by simp [memGet, hc], by simp [memSet, hc], by simp [memDelete, hc]⟩
  · intro T zero ctx key value ttl
    exact ⟨rfl, rfl, rfl⟩
  · intro T env r s ctx key value ttl data h
    simp [dgSet, h]
  · intro T penv r ctx key value ttl data hp hm
    simp [dpSet, hp, hm]

/-- Witness for C2 as amended: at concrete inputs, the memory backend
returns the cancellation error from Set under a cancelled context
with no engine call, and both distributed variants under the same
cancelled context encode the value and issue the client Set call
carrying that context. -/
theorem c2_amended_witness :
    (({ cancelled := true } : Context).cancelled = true
      ∧ memSet natMemEnv { cancelled := true } "k" (5 : Nat) 60 =
          (some GoError.canceled, []))
    ∧ (natOpEnv.serialize Serializer.jsonSerializer 5 = Except.ok [5]
      ∧ dgSet natOpEnv
          { client := some (ClientRef.supplied 0), serializer := Serializer.jsonSerializer }
          { cancelled := true } "k" (5 : Nat) 60 =
          (none, [ClientCall.set { cancelled := true } "k" [5] 60]))
    ∧ (natProtoOpEnv.isProto = true
      ∧ natProtoOpEnv.marshal 5 = Except.ok [5]
      ∧ dpSet natProtoOpEnv { client := some (ClientRef.supplied 0) }
          { cancelled := true } "k" (5 : Nat) 60 =
          (none, [ClientCall.set { cancelled := true } "k" [5] 60])) := by
  refine ⟨?_, ?_, ?_⟩
  · exact ⟨rfl,
      (c2_amended_cancellation_per_backend.1 Nat 0 natMemEnv { cancelled := true }
        "k" 5 60 rfl).2.1⟩
  · refine ⟨rfl, ?_⟩
    exact c2_amended_cancellation_per_backend.2.2.1 Nat natOpEnv (ClientRef.supplied 0)
      Serializer.jsonSerializer { cancelled := true } "k" 5 60 [5] rfl
  · refine ⟨rfl, rfl, ?_⟩
    exact c2_amended_cancellation_per_backend.2.2.2 Nat natProtoOpEnv
      (ClientRef.supplied 0) { cancelled := true } "k" 5 60 [5] rfl rfl

/-- Helper: the proto constructor never issues a close on the client
it creates, whatever the environment and configuration. -/
lemma proto_build_no_close (env : BuildEnv) (config : Option DistributedConfig) :
    BuildEvent.closeClient ∉ (createDistributedCacheForProto env config).trace := by
  obtain ⟨it, im, p⟩ := env
  rcases config with _ | c
  · simp [createDistributedCacheForProto]
  · unfold createDistributedCacheForProto
    by_cases hb : ((setDistributedDefaults c).enableTracing
        || (setDistributedDefaults c).enableMetrics) = true <;>
      cases it <;> cases im <;> cases p <;>
      simp [hb]

/-- Helper: the generic constructor never issues a close on the
client it creates, whatever the environment and configuration. -/
lemma generic_build_no_close (env : BuildEnv) (config : Option DistributedConfig) :
    BuildEvent.closeClient ∉ (NewDistributedGeneric env config).trace := by
  obtain ⟨it, im, p⟩ := env
  rcases config with _ | c
  · simp [NewDistributedGeneric]
  · unfold NewDistributedGeneric
    rcases hres : resolveSerializer (setDistributedDefaults c) with e | s
    · simp [hres]
    · by_cases hb : ((setDistributedDefaults c).enableTracing
          || (setDistributedDefaults c).enableMetrics) = true <;>
        cases it <;> cases im <;> cases p <;>
        simp [hres, hb]

/-- Claim C3 counterexample: constructing the generic distributed
backend with tracing enabled in an environment where attaching
tracing instrumentation fails propagates the instrumentation error,
but the freshly created client (visible in the trace) is not closed:
no close call appears in the trace, contradicting the claim that the
connection is closed before the error is propagated. -/
theorem c3_counterexample_no_close_on_error :
    (NewDistributedGeneric tracingFailEnv (some tracingOnConfig)).result =
      Except.error (GoError.msg "otel instrumentation failed")
    ∧ BuildEvent.newClient (redisOptionsOf (setDistributedDefaults tracingOnConfig)) ∈
        (NewDistributedGeneric tracingFailEnv (some tracingOnConfig)).trace
    ∧ BuildEvent.closeClient ∉
        (NewDistributedGeneric tracingFailEnv (some tracingOnConfig)).trace := by
  refine ⟨rfl, ?_, ?_⟩
  · show BuildEvent.newClient _ ∈
      [BuildEvent.newClient (redisOptionsOf (setDistributedDefaults tracingOnConfig)),
        BuildEvent.instrumentTracing]
    exact List.mem_cons_self _ _
  · show BuildEvent.closeClient ∉
      [BuildEvent.newClient (redisOptionsOf (setDistributedDefaults tracingOnConfig)),
        BuildEvent.instrumentTracing]
    simp

/-- Claim C3 as amended: when attaching tracing instrumentation
fails, when attaching metrics instrumentation fails, or when the
liveness probe issued after instrumentation fails during construction
of an owned connection, the error is propagated — by the proto
constructor and, whenever the serializer stage succeeds, by the
generic constructor — but the freshly created connection is not
closed before the error is returned: neither constructor ever issues
a close during construction, so a failed construction leaves the new
connection open. -/
theorem c3_amended_error_propagated_without_close :
    (∀ (env : BuildEnv) (config : Option DistributedConfig),
      BuildEvent.closeClient ∉ (NewDistributedGeneric env config).trace
      ∧ BuildEvent.closeClient ∉ (createDistributedCacheForProto env config).trace)
    ∧ (∀ (env : BuildEnv) (c : DistributedConfig) (e : GoError),
      (c.enableTracing = true ∨ c.enableMetrics = true) →
      env.instrumentTracingErr = some e →
      (createDistributedCacheForProto env (some c)).result = Except.error e)
    ∧ (∀ (env : BuildEnv) (c : DistributedConfig) (e : GoError),
      (c.enableTracing = true ∨ c.enableMetrics = true) →
      env.instrumentTracingErr = none →
      env.instrumentMetricsErr = some e →
      (createDistributedCacheForProto env (some c)).result = Except.error e)
    ∧ (∀ (env : BuildEnv) (c : DistributedConfig) (e : GoError),
      env.instrumentTracingErr = none →
      env.instrumentMetricsErr = none →
      env.pingErr = some e →
      (createDistributedCacheForProto env (some c)).result = Except.error e)
    ∧ (∀ (env : BuildEnv) (c : DistributedConfig) (s : Serializer),
      resolveSerializer (setDistributedDefaults c) = Except.ok s →
      (∀ e : GoError, (c.enableTracing = true ∨ c.enableMetrics = true) →
        env.instrumentTracingErr = some e →
        (NewDistributedGeneric env (some c)).result = Except.error e)
      ∧ (∀ e : GoError, (c.enableTracing = true ∨ c.enableMetrics = true) →
        env.instrumentTracingErr = none →
        env.instrumentMetricsErr = some e →
        (NewDistributedGeneric env (some c)).result = Except.error e)
      ∧ (∀ e : GoError,
        env.instrumentTracingErr = none →
        env.instrumentMetricsErr = none →
        env.pingErr = some e →
        (NewDistributedGeneric env (some c)).result = Except.error e)) := by
  refine ⟨?_, ?_, ?_, ?_, ?_⟩
  · intro env config
    exact ⟨generic_build_no_close env config, proto_build_no_close env config⟩
  · intro env c e hflag hit
    obtain ⟨it, im, p⟩ := env
    simp only at hit
    subst hit
    unfold createDistributedCacheForProto
    rcases hflag with h | h <;> simp [setDistributedDefaults, h]
  · intro env c e hflag h1 h2
    obtain ⟨it, im, p⟩ := env
    simp only at h1 h2
    subst h1; subst h2
    unfold createDistributedCacheForProto
    rcases hflag with h | h <;> simp [setDistributedDefaults, h]
  · intro env c e h1 h2 h3
    obtain ⟨it, im, p⟩ := env
    simp only at h1 h2 h3
    subst h1; subst h2; subst h3
    unfold createDistributedCacheForProto
    by_cases hb : ((setDistributedDefaults c).enableTracing
        || (setDistributedDefaults c).enableMetrics) = true <;> simp [hb]
  · intro env c s hres
    obtain ⟨it, im, p⟩ := env
    have hcond : ((setDistributedDefaults c).enableTracing
        || (setDistributedDefaults c).enableMetrics) =
        (c.enableTracing || c.enableMetrics) := rfl
    refine ⟨?_, ?_, ?_⟩
    · intro e hflag hit
      simp only at hit
      subst hit
      unfold NewDistributedGeneric
      rcases hflag with h | h <;> simp [hres, hcond, h]
    · intro e hflag h1 h2
      simp only at h1 h2
      subst h1; subst h2
      unfold NewDistributedGeneric
      rcases hflag with h | h <;> simp [hres, hcond, h]
    · intro e h1 h2 h3
      simp only at h1 h2 h3
      subst h1; subst h2; subst h3
      unfold NewDistributedGeneric
      by_cases hb : ((setDistributedDefaults c).enableTracing
          || (setDistributedDefaults c).enableMetrics) = true <;> simp [hres, hb]

/-- Witness for C3 as amended: at concrete tracing-failure and
metrics-failure inputs, the instrumentation error is propagated by
both constructors (the generic one resolving its default JSON
serializer) and no close call appears in the construction trace. -/
theorem c3_amended_witness :
    (tracingOnConfig.enableTracing = true
      ∧ tracingFailEnv.instrumentTracingErr =
          some (GoError.msg "otel instrumentation failed")
      ∧ metricsFailEnv.instrumentTracingErr = none
      ∧ metricsFailEnv.instrumentMetricsErr =
          some (GoError.msg "otel metrics failed")
      ∧ resolveSerializer (setDistributedDefaults tracingOnConfig) =
          Except.ok Serializer.jsonSerializer)
    ∧ BuildEvent.closeClient ∉
        (NewDistributedGeneric tracingFailEnv (some tracingOnConfig)).trace
    ∧ (createDistributedCacheForProto tracingFailEnv (some tracingOnConfig)).result =
        Except.error (GoError.msg "otel instrumentation failed")
    ∧ (createDistributedCacheForProto metricsFailEnv (some tracingOnConfig)).result =
        Except.error (GoError.msg "otel metrics failed")
    ∧ (NewDistributedGeneric tracingFailEnv (some tracingOnConfig)).result =
        Except.error (GoError.msg "otel instrumentation failed")
    ∧ (NewDistributedGeneric metricsFailEnv (some tracingOnConfig)).result =
        Except.error (GoError.msg "otel metrics failed") := by
  refine ⟨⟨rfl, rfl, rfl, rfl, rfl⟩, ?_, ?_, ?_, ?_, ?_⟩
  · exact (c3_amended_error_propagated_without_close.1 tracingFailEnv
      (some tracingOnConfig)).1
  · exact c3_amended_error_propagated_without_close.2.1 tracingFailEnv tracingOnConfig
      (GoError.msg "otel instrumentation failed") (Or.inl rfl) rfl
  · exact c3_amended_error_propagated_without_close.2.2.1 metricsFailEnv
      tracingOnConfig (GoError.msg "otel metrics failed") (Or.inl rfl) rfl rfl
  · exact (c3_amended_error_propagated_without_close.2.2.2.2 tracingFailEnv
      tracingOnConfig Serializer.jsonSerializer rfl).1
      (GoError.msg "otel instrumentation failed") (Or.inl rfl) rfl
  · exact (c3_amended_error_propagated_without_close.2.2.2.2 metricsFailEnv
      tracingOnConfig Serializer.jsonSerializer rfl).2.1
      (GoError.msg "otel metrics failed") (Or.inl rfl) rfl rfl

/-- Claim C4 counterexample: a configuration with the tracing flag
off and the metrics flag on still gets tracing instrumentation
attached during construction, so tracing is not attached if and only
if its own flag is set. -/
theorem c4_counterexample_metrics_attaches_tracing :
    metricsOnlyConfig.enableTracing = false
    ∧ BuildEvent.instrumentTracing ∈
        (NewDistributedForProto benignBuildEnv (some metricsOnlyConfig)).trace := by
  refine ⟨rfl, ?_⟩
  show BuildEvent.instrumentTracing ∈
    [BuildEvent.newClient (redisOptionsOf (setDistributedDefaults metricsOnlyConfig)),
      BuildEvent.instrumentTracing, BuildEvent.instrumentMetrics, BuildEvent.ping]
  simp

/-- Claim C4 as amended: instrumentation on an owned connection is
gated by the disjunction of the two flags — if either EnableTracing
or EnableMetrics is set, tracing instrumentation is attached and
then, provided tracing attachment succeeded, metrics instrumentation
is attached; if neither flag is set, neither instrumentation is
attached. This holds for the proto constructor and, whenever the
serializer stage succeeds (for instance with a custom serializer),
for the generic constructor. -/
theorem c4_amended_instrumentation_gating :
    ∀ (env : BuildEnv) (c : DistributedConfig),
      (BuildEvent.instrumentTracing ∈ (NewDistributedForProto env (some c)).trace
        ↔ (c.enableTracing || c.enableMetrics) = true)
      ∧ (BuildEvent.instrumentMetrics ∈ (NewDistributedForProto env (some c)).trace
        ↔ ((c.enableTracing || c.enableMetrics) = true
            ∧ env.instrumentTracingErr = none))
      ∧ (∀ s : Serializer, c.serializer = some s →
          (BuildEvent.instrumentTracing ∈ (NewDistributedGeneric env (some c)).trace
            ↔ (c.enableTracing || c.enableMetrics) = true)
          ∧ (BuildEvent.instrumentMetrics ∈ (NewDistributedGeneric env (some c)).trace
            ↔ ((c.enableTracing || c.enableMetrics) = true
                ∧ env.instrumentTracingErr = none))) := by
  intro env c
  obtain ⟨it, im, p⟩ := env
  have hres : resolveSerializer (setDistributedDefaults c) =
      (match c.serializer with
       | some s => Except.ok s
       | none =>
         NewSerializer (if c.serializationType = "" then SerializationJSON
           else c.serializationType)) := rfl
  refine ⟨?_, ?_, ?_⟩
  · unfold NewDistributedForProto createDistributedCacheForProto
    cases hb : (c.enableTracing || c.enableMetrics) <;>
      cases it <;> cases im <;> cases p <;>
      simp [show ((setDistributedDefaults c).enableTracing
        || (setDistributedDefaults c).enableMetrics) = (c.enableTracing || c.enableMetrics)
        from rfl, hb]
  · unfold NewDistributedForProto createDistributedCacheForProto
    cases hb : (c.enableTracing || c.enableMetrics) <;>
      cases it <;> cases im <;> cases p <;>
      simp [show ((setDistributedDefaults c).enableTracing
        || (setDistributedDefaults c).enableMetrics) = (c.enableTracing || c.enableMetrics)
        from rfl, hb]
  · intro s hs
    have hres2 : resolveSerializer (setDistributedDefaults c) = Except.ok s := by
      rw [hres, hs]
    constructor <;>
    · unfold NewDistributedGeneric
      cases hb : (c.enableTracing || c.enableMetrics) <;>
        cases it <;> cases im <;> cases p <;>
        simp [hres2, show ((setDistributedDefaults c).enableTracing
          || (setDistributedDefaults c).enableMetrics) = (c.enableTracing || c.enableMetrics)
          from rfl, hb]

/-- Witness for C4 as amended: with a custom serializer, the metrics
flag alone makes tracing instrumentation attach on the generic
constructor as well. -/
theorem c4_amended_witness :
    (metricsOnlyCustomSerConfig.serializer = some (Serializer.custom 7)
      ∧ (metricsOnlyCustomSerConfig.enableTracing
          || metricsOnlyCustomSerConfig.enableMetrics) = true)
    ∧ BuildEvent.instrumentTracing ∈
        (NewDistributedGeneric benignBuildEnv (some metricsOnlyCustomSerConfig)).trace := by
  refine ⟨⟨rfl, rfl⟩, ?_⟩
  exact (((c4_amended_instrumentation_gating benignBuildEnv
    metricsOnlyCustomSerConfig).2.2 (Serializer.custom 7) rfl).1).mpr rfl

/-- Claim C5: the factory dispatches as specified — a nil
configuration fails with config cannot be nil; kind memory builds the
local backend (with a nil sub-configuration using the local default,
TTL extension skipped); kind distributed routes on the proto-message
detector result for the element type, to the structured-payload
variant when it holds and to the generic variant otherwise; kind noop
builds the no-op backend; any other kind fails with unknown cache
type followed by the kind. -/
theorem c5_factory_dispatch :
    ∀ (isProto : Bool) (env : BuildEnv),
      New isProto env none = Except.error (GoError.msg "config cannot be nil")
      ∧ (∀ (m : Option MemoryConfig) (d : Option DistributedConfig),
          New isProto env (some { type := TypeMemory, memory := m, distributed := d }) =
            Except.ok (Backend.memory (NewMemory m)))
      ∧ (∀ (d : Option DistributedConfig),
          New isProto env (some { type := TypeMemory, memory := none, distributed := d }) =
            Except.ok (Backend.memory { skipTTLExtensionOnHit := true }))
      ∧ (∀ (m : Option MemoryConfig) (d : Option DistributedConfig),
          New true env (some { type := TypeDistributed, memory := m, distributed := d }) =
            (match (createDistributedCacheForProto env d).result with
             | Except.error e => Except.error e
             | Except.ok c => Except.ok (Backend.distributedProto c)))
      ∧ (∀ (m : Option MemoryConfig) (d : Option DistributedConfig),
          New false env (some { type := TypeDistributed, memory := m, distributed := d }) =
            (match (NewDistributedGeneric env d).result with
             | Except.error e => Except.error e
             | Except.ok c => Except.ok (Backend.distributedGeneric c)))
      ∧ (∀ (m : Option MemoryConfig) (d : Option DistributedConfig),
          New isProto env (some { type := TypeNoOp, memory := m, distributed := d }) =
            Except.ok Backend.noOp)
      ∧ (∀ (t : String) (m : Option MemoryConfig) (d : Option DistributedConfig),
          t ≠ TypeMemory → t ≠ TypeDistributed → t ≠ TypeNoOp →
          New isProto env (some { type := t, memory := m, distributed := d }) =
            Except.error (GoError.msg ("unknown cache type: " ++ t))) := by
  intro isProto env
  refine ⟨rfl, ?_, ?_, ?_, ?_, ?_, ?_⟩
  · intro m d
    rfl
  · intro d
    rfl
  · intro m d
    rfl
  · intro m d
    rfl
  · intro m d
    rfl
  · intro t m d h1 h2 h3
    simp [New, h1, h2, h3]

/-- Witness for C5: the unrecognized kind weird satisfies the
hypotheses of the unknown-kind clause and makes the factory fail with
the unknown cache type error naming that kind. -/
theorem c5_factory_dispatch_witness :
    (("weird" : String) ≠ TypeMemory ∧ ("weird" : String) ≠ TypeDistributed
      ∧ ("weird" : String) ≠ TypeNoOp)
    ∧ New false benignBuildEnv
        (some { type := "weird", memory := none, distributed := none }) =
        Except.error (GoError.msg "unknown cache type: weird") := by
  refine ⟨⟨by decide, by decide, by decide⟩, ?_⟩
  exact (c5_factory_dispatch false benignBuildEnv).2.2.2.2.2.2 "weird" none none
    (by decide) (by decide) (by decide)

/-- Claim C9: when the distributed configuration sets neither a
custom Serializer nor a SerializationType, NewDistributedGeneric
defaults the encoding to the JSON serializer and, with all external
construction calls succeeding, construction succeeds with that
serializer rather than failing with an unknown-serialization error. -/
theorem c9_default_json :
    ∀ (env : BuildEnv) (c : DistributedConfig),
      c.serializer = none → c.serializationType = "" →
      env.instrumentTracingErr = none → env.instrumentMetricsErr = none →
      env.pingErr = none →
      (NewDistributedGeneric env (some c)).result =
        Except.ok
          { client := some (ClientRef.fresh (redisOptionsOf (setDistributedDefaults c)))
            serializer := Serializer.jsonSerializer } := by
  intro env c hs hst h1 h2 h3
  obtain ⟨it, im, p⟩ := env
  simp only at h1 h2 h3
  subst h1; subst h2; subst h3
  have hres : resolveSerializer (setDistributedDefaults c) =
      Except.ok Serializer.jsonSerializer := by
    show (match c.serializer with
      | some s => Except.ok s
      | none =>
        NewSerializer (if c.serializationType = "" then SerializationJSON
          else c.serializationType)) = Except.ok Serializer.jsonSerializer
    rw [hs, hst]
    rfl
  unfold NewDistributedGeneric
  by_cases hb : ((setDistributedDefaults c).enableTracing
      || (setDistributedDefaults c).enableMetrics) = true <;> simp [hres, hb]

/-- Witness for C9: the all-defaults configuration (no serializer, no
serialization type) with a benign environment constructs the generic
backend with the JSON serializer. -/
theorem c9_default_json_witness :
    (plainDistributedConfig.serializer = none
      ∧ plainDistributedConfig.serializationType = ""
      ∧ benignBuildEnv.instrumentTracingErr = none
      ∧ benignBuildEnv.instrumentMetricsErr = none
      ∧ benignBuildEnv.pingErr = none)
    ∧ (NewDistributedGeneric benignBuildEnv (some plainDistributedConfig)).result =
        Except.ok
          { client := some (ClientRef.fresh
              (redisOptionsOf (setDistributedDefaults plainDistributedConfig)))
            serializer := Serializer.jsonSerializer } :=
  ⟨⟨rfl, rfl, rfl, rfl, rfl⟩,
    c9_default_json benignBuildEnv plainDistributedConfig rfl rfl rfl rfl rfl⟩

end DentechCache
